import Mathlib

/-!
Shallow embedding of `src/scripts/populate_data/populate.py`.

The script is sequential and effectful in exactly three ways: it reads files,
it prints console lines, and it issues HTTP POST requests.  We embed it by
making the two external dependencies explicit parameters:

* the filesystem is an association list from paths to parsed file contents
  (`none` models a file that exists but whose contents are not valid JSON,
  since the script only ever observes a file through `json.load`);
* the HTTP layer is an oracle `Request → Response` giving the server's
  response to each request.

Every function returns the ordered list of observable events it produces
(console prints and HTTP posts) together with an `Except` value: `.error`
models a Python exception propagating out of the function (the script has no
try/except anywhere, so exceptions always propagate to the top).
-/

namespace Populate

/-- A JSON value, as produced by Python's `json.load`.  Numbers are modelled
as integers (the fixtures' numeric fields; floats are not modelled). -/
inductive Json where
  | null : Json
  | bool : Bool → Json
  | num : Int → Json
  | str : String → Json
  | arr : List Json → Json
  | obj : List (String × Json) → Json

/-- A record: one JSON object, i.e. an ordered list of fields.  Python dicts
preserve insertion order and `json.load` keeps the later of duplicate keys;
fixture objects are assumed key-unique so first-match lookup models
`dict.get`. -/
abbrev Record := List (String × Json)

/-- Top-level contents of a fixture file, following the source annotation
`Union[Dict, List[Dict]]` on `read_json_file` and the `isinstance(data, list)`
dispatch in `populate_data`. -/
inductive FixtureJson where
  | obj : Record → FixtureJson
  | arr : List Record → FixtureJson

/-- The filesystem visible to the script: path → parsed contents, where
`some none` is a file present on disk but not valid JSON and absence from the
list is a missing file (`os.path.exists` false). -/
abbrev FileSystem := List (String × Option FixtureJson)

/-- An HTTP request as assembled by `create_entity`:
`requests.post(url, json = data, headers = HEADERS)`. -/
structure Request where
  url : String
  headers : List (String × String)
  body : Record

/-- The response observed by the script: `response.status_code` and
`response.text`. -/
structure Response where
  status_code : Nat
  text : String

/-- Observable events, in program order: console prints and HTTP posts. -/
inductive Event where
  | print : String → Event
  | post : Request → Response → Event

/-- Python exceptions the script can raise (it never catches any). -/
inductive PyError where
  | keyError : String → PyError
  | jsonDecodeError : PyError
  | fileNotFoundError : PyError

/-- `BASE_URL` constant from the source. -/
def BASE_URL : String := "http://localhost:8080/api/v1"

/-- `BEARER_TOKEN` constant from the source. -/
def BEARER_TOKEN : String := "<YOUR_BEARER>"

/-- `HEADERS` dict from the source. -/
def HEADERS : List (String × String) :=
  [("Authorization", "Bearer " ++ BEARER_TOKEN),
   ("Content-Type", "application/json")]

/-- `ENTITIES` dict from the source: entity type → URL path segment, in the
source's order. -/
def ENTITIES : List (String × String) :=
  [("organization", "/organizations"),
   ("department", "/departments"),
   ("permission", "/permissions"),
   ("role", "/roles"),
   ("group", "/groups"),
   ("user", "/users"),
   ("resource", "/resources"),
   ("policy", "/policies"),
   ("resourceType", "/resource-types"),
   ("attributeGroup", "/attribute-groups")]

mutual

/-- Python `repr` of a JSON-decoded value (as used inside containers by
`str`); string escaping is not modelled. -/
def pyRepr : Json → String
  | Json.null => "None"
  | Json.bool true => "True"
  | Json.bool false => "False"
  | Json.num n => toString n
  | Json.str s => "\x27" ++ s ++ "\x27"
  | Json.arr items => "[" ++ pyReprList items ++ "]"
  | Json.obj fields => "\x7b" ++ pyReprFields fields ++ "\x7d"

/-- Comma-separated `repr`s of list elements. -/
def pyReprList : List Json → String
  | [] => ""
  | [j] => pyRepr j
  | j :: rest => pyRepr j ++ ", " ++ pyReprList rest

/-- Comma-separated `repr`s of dict entries. -/
def pyReprFields : List (String × Json) → String
  | [] => ""
  | [kv] => "\x27" ++ kv.1 ++ "\x27: " ++ pyRepr kv.2
  | kv :: rest => "\x27" ++ kv.1 ++ "\x27: " ++ pyRepr kv.2 ++ ", " ++ pyReprFields rest

end

/-- Python `str` of a JSON-decoded value, as applied by f-string
interpolation. -/
def pyStr : Json → String
  | Json.str s => s
  | j => pyRepr j

/-- The interpolation `data.get('id', 'N/A')` as it appears inside the
f-strings of `create_entity`: the stringified `id` field, or the placeholder
when absent. -/
def get_id (data : Record) : String :=
  match List.lookup "id" data with
  | some v => pyStr v
  | none => "N/A"

/-- `read_json_file`: `open` raises `FileNotFoundError` on a missing file and
`json.load` raises `json.JSONDecodeError` on contents that are not valid
JSON; otherwise the parsed document is returned. -/
def read_json_file (fs : FileSystem) (file_path : String) :
    Except PyError FixtureJson :=
  match List.lookup file_path fs with
  | none => Except.error PyError.fileNotFoundError
  | some none => Except.error PyError.jsonDecodeError
  | some (some data) => Except.ok data

/-- `create_entity`: look up the path segment (`ENTITIES[entity_type]`,
`KeyError` if absent), POST the record to `BASE_URL + segment` with
`HEADERS`, then print a success line on status 201 or a three-line failure
report otherwise. -/
def create_entity (api : Request → Response) (entity_type : String)
    (data : Record) : List Event × Except PyError Unit :=
  match List.lookup entity_type ENTITIES with
  | none => ([], Except.error (PyError.keyError entity_type))
  | some seg =>
      let url := BASE_URL ++ seg
      let req : Request := { url := url, headers := HEADERS, body := data }
      let response := api req
      if response.status_code == 201 then
        ([Event.post req response,
          Event.print ("Successfully created " ++ entity_type ++ ": " ++ get_id data)],
         Except.ok ())
      else
        ([Event.post req response,
          Event.print ("Failed to create " ++ entity_type ++ ": " ++ get_id data),
          Event.print ("Status code: " ++ toString response.status_code),
          Event.print ("Response: " ++ response.text)],
         Except.ok ())

/-- The `for item in data: create_entity(entity_type, item)` loop of
`populate_data`; an exception from `create_entity` stops the loop and
propagates. -/
def run_list (api : Request → Response) (entity_type : String) :
    List Record → List Event × Except PyError Unit
  | [] => ([], Except.ok ())
  | item :: rest =>
      let step := create_entity api entity_type item
      match step.2 with
      | Except.error e => (step.1, Except.error e)
      | Except.ok _ =>
          let tail := run_list api entity_type rest
          (step.1 ++ tail.1, tail.2)

/-- The fixture path convention `f"./data/{entity_type}.json"`. -/
def dataPath (entity_type : String) : String :=
  "./data/" ++ entity_type ++ ".json"

/-- `populate_data`: skip (with a notice) when the fixture file does not
exist, otherwise read it and publish each record (the whole list for an
array, the single object otherwise).  Exceptions from reading or publishing
propagate. -/
def populate_data (fs : FileSystem) (api : Request → Response)
    (entity_type : String) : List Event × Except PyError Unit :=
  let file_path := dataPath entity_type
  if (List.lookup file_path fs).isNone then
    ([Event.print ("File not found: " ++ file_path)], Except.ok ())
  else
    match read_json_file fs file_path with
    | Except.error e => ([], Except.error e)
    | Except.ok (FixtureJson.arr items) => run_list api entity_type items
    | Except.ok (FixtureJson.obj record) => create_entity api entity_type record

/-- The `creation_order` list from `main`. -/
def creation_order : List String :=
  ["organization", "department", "permission", "role", "group",
   "user", "resourceType", "attributeGroup", "resource", "policy"]

/-- The loop body of `main`: for each entity type in order, print the
banner and run `populate_data`; an exception aborts the remainder of the
loop (the script has no try/except). -/
def run_order (fs : FileSystem) (api : Request → Response) :
    List String → List Event × Except PyError Unit
  | [] => ([], Except.ok ())
  | entity_type :: rest =>
      let banner := Event.print ("\nPopulating " ++ entity_type ++ "...")
      let step := populate_data fs api entity_type
      match step.2 with
      | Except.error e => (banner :: step.1, Except.error e)
      | Except.ok _ =>
          let tail := run_order fs api rest
          (banner :: step.1 ++ tail.1, tail.2)

/-- `main`: run the fixed creation order. -/
def main (fs : FileSystem) (api : Request → Response) :
    List Event × Except PyError Unit :=
  run_order fs api creation_order

/-- The HTTP requests contained in an event trace, in order. -/
def postsOf : List Event → List Request
  | [] => []
  | Event.post req _ :: rest => req :: postsOf rest
  | Event.print _ :: rest => postsOf rest

/-- The path segment of an entity type that is a key of `ENTITIES`
(statement-side shorthand; the default is never reached for entity types in
`creation_order`, see the key-coverage theorem). -/
def entityPath (entity_type : String) : String :=
  (List.lookup entity_type ENTITIES).getD ""

/-- The records of a fixture document in publication order: an array is
published element by element, a single object is published once. -/
def recordsOf : FixtureJson → List Record
  | FixtureJson.obj r => [r]
  | FixtureJson.arr rs => rs

/-- A filesystem holding one fixture file for every entity type of the
creation order, with contents given by `content`. -/
def fixtureFS (content : String → FixtureJson) : FileSystem :=
  creation_order.map (fun e => (dataPath e, some (content e)))

/-! ### Helper lemmas -/

lemma postsOf_append (a b : List Event) :
    postsOf (a ++ b) = postsOf a ++ postsOf b := by
  induction a with
  | nil => rfl
  | cons ev rest ih => cases ev <;> simp [postsOf, ih]

lemma create_entity_eq (api : Request → Response) (e p : String) (r : Record)
    (hp : List.lookup e ENTITIES = some p) :
    create_entity api e r =
      ((if (api { url := BASE_URL ++ p, headers := HEADERS, body := r }).status_code == 201 then
          [Event.post { url := BASE_URL ++ p, headers := HEADERS, body := r }
             (api { url := BASE_URL ++ p, headers := HEADERS, body := r }),
           Event.print ("Successfully created " ++ e ++ ": " ++ get_id r)]
        else
          [Event.post { url := BASE_URL ++ p, headers := HEADERS, body := r }
             (api { url := BASE_URL ++ p, headers := HEADERS, body := r }),
           Event.print ("Failed to create " ++ e ++ ": " ++ get_id r),
           Event.print ("Status code: " ++
             toString (api { url := BASE_URL ++ p, headers := HEADERS, body := r }).status_code),
           Event.print ("Response: " ++
             (api { url := BASE_URL ++ p, headers := HEADERS, body := r }).text)]),
       Except.ok ()) := by
  simp only [create_entity, hp]
  split <;> rename_i h <;> simp [h]

lemma create_entity_snd (api : Request → Response) (e p : String) (r : Record)
    (hp : List.lookup e ENTITIES = some p) :
    (create_entity api e r).2 = Except.ok () := by
  rw [create_entity_eq api e p r hp]

lemma create_entity_posts (api : Request → Response) (e p : String) (r : Record)
    (hp : List.lookup e ENTITIES = some p) :
    postsOf (create_entity api e r).1 =
      [{ url := BASE_URL ++ p, headers := HEADERS, body := r }] := by
  rw [create_entity_eq api e p r hp]
  split <;> simp [postsOf]

lemma create_entity_fst_201 (api : Request → Response) (e p : String) (r : Record)
    (hp : List.lookup e ENTITIES = some p)
    (h201 : ∀ req, (api req).status_code = 201) :
    (create_entity api e r).1 =
      [Event.post { url := BASE_URL ++ p, headers := HEADERS, body := r }
         (api { url := BASE_URL ++ p, headers := HEADERS, body := r }),
       Event.print ("Successfully created " ++ e ++ ": " ++ get_id r)] := by
  rw [create_entity_eq api e p r hp]
  simp [h201]

lemma run_list_eq (api : Request → Response) (e p : String) (rs : List Record)
    (hp : List.lookup e ENTITIES = some p) :
    run_list api e rs =
      (rs.flatMap (fun r => (create_entity api e r).1), Except.ok ()) := by
  induction rs with
  | nil => rfl
  | cons r rest ih =>
      simp only [run_list, create_entity_snd api e p r hp, ih, List.flatMap_cons]

lemma populate_data_trace (fs : FileSystem) (api : Request → Response)
    (e p : String) (fj : FixtureJson)
    (hfile : List.lookup (dataPath e) fs = some (some fj))
    (hp : List.lookup e ENTITIES = some p) :
    populate_data fs api e =
      ((recordsOf fj).flatMap (fun r => (create_entity api e r).1), Except.ok ()) := by
  cases fj with
  | arr items =>
      simp only [populate_data, read_json_file, hfile, Option.isNone_some,
        Bool.false_eq_true, if_false, recordsOf]
      exact run_list_eq api e p items hp
  | obj r =>
      simp only [populate_data, read_json_file, hfile, Option.isNone_some,
        Bool.false_eq_true, if_false, recordsOf, List.flatMap_cons, List.flatMap_nil,
        List.append_nil]
      rw [create_entity_eq api e p r hp]

lemma flatMap_congr_mem {α β : Type _} {l : List α} {f g : α → List β}
    (h : ∀ e ∈ l, f e = g e) : l.flatMap f = l.flatMap g := by
  induction l with
  | nil => rfl
  | cons x xs ih =>
      simp only [List.flatMap_cons]
      rw [h x (by simp), ih (fun e he => h e (by simp [he]))]

lemma lookup_entityPath :
    ∀ e ∈ creation_order, List.lookup e ENTITIES = some (entityPath e) := by
  decide

lemma fixtureFS_lookup (content : String → FixtureJson) :
    ∀ e ∈ creation_order, List.lookup (dataPath e) (fixtureFS content) =
      some (some (content e)) := by
  intro e he
  simp only [creation_order, List.mem_cons, List.not_mem_nil, or_false] at he
  rcases he with rfl | rfl | rfl | rfl | rfl | rfl | rfl | rfl | rfl | rfl <;> rfl

lemma run_order_trace (fs : FileSystem) (api : Request → Response)
    (content : String → FixtureJson) (l : List String)
    (hkeys : ∀ e ∈ l, List.lookup e ENTITIES = some (entityPath e))
    (hfiles : ∀ e ∈ l, List.lookup (dataPath e) fs = some (some (content e))) :
    run_order fs api l =
      (l.flatMap (fun e =>
        Event.print ("\nPopulating " ++ e ++ "...") ::
          (recordsOf (content e)).flatMap (fun r => (create_entity api e r).1)),
       Except.ok ()) := by
  induction l with
  | nil => rfl
  | cons e rest ih =>
      have hstep := populate_data_trace fs api e (entityPath e) (content e)
        (hfiles e (by simp)) (hkeys e (by simp))
      simp only [run_order, hstep, List.flatMap_cons]
      rw [ih (fun x hx => hkeys x (by simp [hx])) (fun x hx => hfiles x (by simp [hx]))]

lemma postsOf_create_flatMap (api : Request → Response) (e p : String)
    (hp : List.lookup e ENTITIES = some p) (rs : List Record) :
    postsOf (rs.flatMap (fun r => (create_entity api e r).1)) =
      rs.map (fun r => { url := BASE_URL ++ p, headers := HEADERS, body := r }) := by
  induction rs with
  | nil => rfl
  | cons r rest ih =>
      simp only [List.flatMap_cons, postsOf_append, create_entity_posts api e p r hp,
        ih, List.map_cons, List.singleton_append]

lemma populate_data_no_keyError (fs : FileSystem) (api : Request → Response)
    (e : String) (hp : (List.lookup e ENTITIES).isSome = true) (k : String) :
    (populate_data fs api e).2 ≠ Except.error (PyError.keyError k) := by
  obtain ⟨p, hp'⟩ := Option.isSome_iff_exists.mp hp
  cases hfs : List.lookup (dataPath e) fs with
  | none => simp [populate_data, hfs]
  | some c =>
      cases c with
      | none => simp [populate_data, read_json_file, hfs]
      | some fj =>
          rw [populate_data_trace fs api e p fj hfs hp']
          simp

lemma run_order_no_keyError (fs : FileSystem) (api : Request → Response)
    (l : List String) (hl : ∀ e ∈ l, (List.lookup e ENTITIES).isSome = true)
    (k : String) :
    (run_order fs api l).2 ≠ Except.error (PyError.keyError k) := by
  induction l with
  | nil => simp [run_order]
  | cons e rest ih =>
      have hpd := populate_data_no_keyError fs api e (hl e (by simp)) k
      simp only [run_order]
      cases hstep : (populate_data fs api e).2 with
      | error err =>
          rw [hstep] at hpd
          simp only [hstep]
          simpa using hpd
      | ok u =>
          simp only [hstep]
          exact ih (fun x hx => hl x (by simp [hx]))

/-! ### Witness fixtures (concrete instances used by the witness theorems) -/

/-- An API oracle that accepts every request with status 201. -/
def okApi : Request → Response := fun _ => { status_code := 201, text := "created" }

/-- Fixture contents giving every entity type a one-record array. -/
def cContent : String → FixtureJson :=
  fun _ => FixtureJson.arr [[("id", Json.str "x1")]]

/-- A filesystem where the organization fixture exists but is not valid JSON
while the department fixture is present and well-formed. -/
def badFS : FileSystem :=
  [(dataPath "organization", none),
   (dataPath "department", some (FixtureJson.arr [[("id", Json.str "d1")]]))]

/-- A filesystem holding a two-record array fixture for `role`. -/
def cFS : FileSystem :=
  [(dataPath "role",
    some (FixtureJson.arr [[("id", Json.str "r1")], [("name", Json.str "admin")]]))]

/-- A filesystem holding a single-object fixture for `organization`. -/
def cFS2 : FileSystem :=
  [(dataPath "organization", some (FixtureJson.obj [("id", Json.str "o1")]))]

/-! ### Claim theorems -/

/-- C4: when an entity type's fixture file does not exist at the conventional
path, the driver issues no HTTP calls for it, raises no error, prints only
the skip notice, and the driver loop continues with the next entity types. -/
theorem missing_file_skipped (fs : FileSystem) (api : Request → Response)
    (e : String) (rest : List String)
    (h : List.lookup (dataPath e) fs = none) :
    populate_data fs api e =
      ([Event.print ("File not found: " ++ dataPath e)], Except.ok ()) ∧
    postsOf (populate_data fs api e).1 = [] ∧
    run_order fs api (e :: rest) =
      (Event.print ("\nPopulating " ++ e ++ "...") ::
        Event.print ("File not found: " ++ dataPath e) :: (run_order fs api rest).1,
       (run_order fs api rest).2) := by
  have hpd : populate_data fs api e =
      ([Event.print ("File not found: " ++ dataPath e)], Except.ok ()) := by
    simp [populate_data, h]
  refine ⟨hpd, by rw [hpd]; rfl, ?_⟩
  simp only [run_order, hpd, List.cons_append, List.nil_append]

/-- C4 witness: the empty filesystem has no fixture for `user`; the driver
skips it with a notice and no HTTP call. -/
theorem missing_file_skipped_witness :
    populate_data [] okApi "user" =
      ([Event.print ("File not found: " ++ dataPath "user")], Except.ok ()) ∧
    postsOf (populate_data [] okApi "user").1 = [] ∧
    run_order [] okApi ["user"] =
      (Event.print ("\nPopulating " ++ "user" ++ "...") ::
        Event.print ("File not found: " ++ dataPath "user") :: (run_order [] okApi []).1,
       (run_order [] okApi []).2) :=
  missing_file_skipped [] okApi "user" [] rfl

/-- C5: a fixture file parsing to a JSON array of N records yields exactly N
HTTP POST calls, one per record, in array order. -/
theorem array_fixture_posts (fs : FileSystem) (api : Request → Response)
    (e p : String) (rs : List Record)
    (hfile : List.lookup (dataPath e) fs = some (some (FixtureJson.arr rs)))
    (hp : List.lookup e ENTITIES = some p) :
    postsOf (populate_data fs api e).1 =
      rs.map (fun r => { url := BASE_URL ++ p, headers := HEADERS, body := r }) ∧
    (postsOf (populate_data fs api e).1).length = rs.length := by
  have h := populate_data_trace fs api e p (FixtureJson.arr rs) hfile hp
  rw [h]
  simp only [recordsOf, postsOf_create_flatMap api e p hp rs, List.length_map,
    and_true]

/-- C5 witness: the two-record `role` fixture yields exactly the two posts in
array order. -/
theorem array_fixture_posts_witness :
    postsOf (populate_data cFS okApi "role").1 =
      ([[("id", Json.str "r1")], [("name", Json.str "admin")]] : List Record).map
        (fun r => { url := BASE_URL ++ "/roles", headers := HEADERS, body := r }) ∧
    (postsOf (populate_data cFS okApi "role").1).length =
      ([[("id", Json.str "r1")], [("name", Json.str "admin")]] : List Record).length :=
  array_fixture_posts cFS okApi "role" "/roles"
    [[("id", Json.str "r1")], [("name", Json.str "admin")]] rfl rfl

/-- C6: a fixture file parsing to a single JSON object yields exactly one
HTTP POST call, with that object as the body. -/
theorem object_fixture_single_post (fs : FileSystem) (api : Request → Response)
    (e p : String) (r : Record)
    (hfile : List.lookup (dataPath e) fs = some (some (FixtureJson.obj r)))
    (hp : List.lookup e ENTITIES = some p) :
    postsOf (populate_data fs api e).1 =
      [{ url := BASE_URL ++ p, headers := HEADERS, body := r }] := by
  have h := populate_data_trace fs api e p (FixtureJson.obj r) hfile hp
  rw [h]
  simp only [recordsOf, postsOf_create_flatMap api e p hp [r], List.map_cons,
    List.map_nil]

/-- C6 witness: the single-object `organization` fixture yields exactly one
post carrying that object. -/
theorem object_fixture_single_post_witness :
    postsOf (populate_data cFS2 okApi "organization").1 =
      [{ url := BASE_URL ++ "/organizations", headers := HEADERS,
         body := [("id", Json.str "o1")] }] :=
  object_fixture_single_post cFS2 okApi "organization" "/organizations"
    [("id", Json.str "o1")] rfl rfl

/-- C7: every request built by the publisher targets the configured base URL
concatenated with the entity type's path segment, carries the bearer-token
authorization header and the JSON content-type header, and has the record as
body. -/
theorem request_shape (api : Request → Response) (e p : String) (r : Record)
    (hp : List.lookup e ENTITIES = some p) :
    postsOf (create_entity api e r).1 =
      [{ url := BASE_URL ++ p, headers := HEADERS, body := r }] ∧
    ("Authorization", "Bearer " ++ BEARER_TOKEN) ∈ HEADERS ∧
    ("Content-Type", "application/json") ∈ HEADERS :=
  ⟨create_entity_posts api e p r hp, by simp [HEADERS], by simp [HEADERS]⟩

/-- C7 witness: publishing an empty record for `policy` issues the single
request to the policies endpoint with the standard headers. -/
theorem request_shape_witness :
    postsOf (create_entity okApi "policy" []).1 =
      [{ url := BASE_URL ++ "/policies", headers := HEADERS, body := [] }] ∧
    ("Authorization", "Bearer " ++ BEARER_TOKEN) ∈ HEADERS ∧
    ("Content-Type", "application/json") ∈ HEADERS :=
  request_shape okApi "policy" "/policies" [] rfl

/-- C8: on status 201 the publisher reports success with the record's `id`
(or the `N/A` placeholder when absent); on any other status it reports
failure with the numeric status code and the raw response body. -/
theorem report_success_failure (api : Request → Response) (e p : String)
    (r : Record) (hp : List.lookup e ENTITIES = some p) :
    ((api { url := BASE_URL ++ p, headers := HEADERS, body := r }).status_code = 201 →
      create_entity api e r =
        ([Event.post { url := BASE_URL ++ p, headers := HEADERS, body := r }
            (api { url := BASE_URL ++ p, headers := HEADERS, body := r }),
          Event.print ("Successfully created " ++ e ++ ": " ++ get_id r)],
         Except.ok ())) ∧
    ((api { url := BASE_URL ++ p, headers := HEADERS, body := r }).status_code ≠ 201 →
      create_entity api e r =
        ([Event.post { url := BASE_URL ++ p, headers := HEADERS, body := r }
            (api { url := BASE_URL ++ p, headers := HEADERS, body := r }),
          Event.print ("Failed to create " ++ e ++ ": " ++ get_id r),
          Event.print ("Status code: " ++
            toString (api { url := BASE_URL ++ p, headers := HEADERS, body := r }).status_code),
          Event.print ("Response: " ++
            (api { url := BASE_URL ++ p, headers := HEADERS, body := r }).text)],
         Except.ok ())) ∧
    (List.lookup "id" r = none → get_id r = "N/A") ∧
    (∀ v, List.lookup "id" r = some v → get_id r = pyStr v) := by
  refine ⟨fun h201 => ?_, fun hfail => ?_, fun hnone => ?_, fun v hv => ?_⟩
  · rw [create_entity_eq api e p r hp]
    simp [h201]
  · rw [create_entity_eq api e p r hp]
    simp [hfail]
  · simp [get_id, hnone]
  · simp [get_id, hv]

/-- The record used by the C8 witness. -/
def wRec : Record := [("id", Json.str "u1")]

/-- The request assembled for the C8 witness record. -/
def wReq : Request := { url := BASE_URL ++ "/users", headers := HEADERS, body := wRec }

/-- C8 witness: with the always-201 oracle and a record carrying an `id`,
the publisher's success and failure reports take the stated shapes. -/
theorem report_success_failure_witness :
    ((okApi wReq).status_code = 201 →
      create_entity okApi "user" wRec =
        ([Event.post wReq (okApi wReq),
          Event.print ("Successfully created " ++ "user" ++ ": " ++ get_id wRec)],
         Except.ok ())) ∧
    ((okApi wReq).status_code ≠ 201 →
      create_entity okApi "user" wRec =
        ([Event.post wReq (okApi wReq),
          Event.print ("Failed to create " ++ "user" ++ ": " ++ get_id wRec),
          Event.print ("Status code: " ++ toString (okApi wReq).status_code),
          Event.print ("Response: " ++ (okApi wReq).text)],
         Except.ok ())) ∧
    (List.lookup "id" wRec = none → get_id wRec = "N/A") ∧
    (∀ v, List.lookup "id" wRec = some v → get_id wRec = pyStr v) :=
  report_success_failure okApi "user" "/users" wRec rfl

/-- C9: the bodies of the posts issued for a fixture file are exactly the
records read from it, in order and unchanged. -/
theorem roundtrip_bodies (fs : FileSystem) (api : Request → Response)
    (e p : String) (fj : FixtureJson)
    (hfile : List.lookup (dataPath e) fs = some (some fj))
    (hp : List.lookup e ENTITIES = some p) :
    (postsOf (populate_data fs api e).1).map Request.body = recordsOf fj := by
  rw [populate_data_trace fs api e p fj hfile hp]
  simp only [postsOf_create_flatMap api e p hp, List.map_map]
  have hid : (Request.body ∘ fun r : Record =>
      ({ url := BASE_URL ++ p, headers := HEADERS, body := r } : Request)) = id := rfl
  rw [hid, List.map_id]

/-- C9 witness: the two `role` records are transmitted verbatim as the
request bodies. -/
theorem roundtrip_bodies_witness :
    (postsOf (populate_data cFS okApi "role").1).map Request.body =
      recordsOf (FixtureJson.arr [[("id", Json.str "r1")], [("name", Json.str "admin")]]) :=
  roundtrip_bodies cFS okApi "role" "/roles"
    (FixtureJson.arr [[("id", Json.str "r1")], [("name", Json.str "admin")]]) rfl rfl

/-- C1: with every entity type backed by a fixture file and an API that
answers 201 to every request, one run of the driver produces exactly the
trace that, following the creation order organization, department,
permission, role, group, user, resourceType, attributeGroup, resource,
policy, groups each entity type's banner, posts and per-record success
reports together, and ends without error. -/
theorem main_full_run_success (content : String → FixtureJson)
    (api : Request → Response)
    (h201 : ∀ req, (api req).status_code = 201) :
    main (fixtureFS content) api =
      (creation_order.flatMap (fun e =>
        Event.print ("\nPopulating " ++ e ++ "...") ::
          (recordsOf (content e)).flatMap (fun r =>
            [Event.post { url := BASE_URL ++ entityPath e, headers := HEADERS, body := r }
               (api { url := BASE_URL ++ entityPath e, headers := HEADERS, body := r }),
             Event.print ("Successfully created " ++ e ++ ": " ++ get_id r)])),
       Except.ok ()) := by
  rw [main, run_order_trace (fixtureFS content) api content creation_order
    lookup_entityPath (fixtureFS_lookup content)]
  congr 1
  apply flatMap_congr_mem
  intro e he
  have hp := lookup_entityPath e he
  congr 1
  exact congrArg (List.flatMap (recordsOf (content e)))
    (funext fun r => create_entity_fst_201 api e (entityPath e) r hp h201)

/-- C1 witness: the concrete one-record-per-type fixtures with the
always-201 oracle produce the grouped all-success trace. -/
theorem main_full_run_success_witness :
    (∀ req, (okApi req).status_code = 201) ∧
    main (fixtureFS cContent) okApi =
      (creation_order.flatMap (fun e =>
        Event.print ("\nPopulating " ++ e ++ "...") ::
          (recordsOf (cContent e)).flatMap (fun r =>
            [Event.post { url := BASE_URL ++ entityPath e, headers := HEADERS, body := r }
               (okApi { url := BASE_URL ++ entityPath e, headers := HEADERS, body := r }),
             Event.print ("Successfully created " ++ e ++ ": " ++ get_id r)])),
       Except.ok ()) :=
  ⟨fun _ => rfl, main_full_run_success cContent okApi (fun _ => rfl)⟩

/-- C2 counterexample: with the organization fixture present but invalid
JSON and a well-formed department fixture present, the run stops at the
parse error: the whole trace is the organization banner, no HTTP call is
ever issued (in particular none for department), and the run ends with the
uncaught decode error — refuting that subsequent entity types are still
processed. -/
theorem parse_error_halts_run_cex :
    main badFS okApi =
      ([Event.print ("\nPopulating " ++ "organization" ++ "...")],
       Except.error PyError.jsonDecodeError) ∧
    List.lookup (dataPath "department") badFS =
      some (some (FixtureJson.arr [[("id", Json.str "d1")]])) ∧
    postsOf (main badFS okApi).1 = [] :=
  ⟨rfl, rfl, rfl⟩

/-- C2 (amended): a parse error on an entity type's fixture file aborts not
only that file's batch but the entire run — the decode error propagates
uncaught out of the driver loop and no later entity type is processed. -/
theorem parse_error_aborts_entire_run (fs : FileSystem) (api : Request → Response)
    (e : String) (rest : List String)
    (hbad : List.lookup (dataPath e) fs = some none) :
    run_order fs api (e :: rest) =
      ([Event.print ("\nPopulating " ++ e ++ "...")],
       Except.error PyError.jsonDecodeError) := by
  have hpd : populate_data fs api e = ([], Except.error PyError.jsonDecodeError) := by
    simp [populate_data, read_json_file, hbad]
  simp [run_order, hpd]

/-- C2 witness: on the concrete filesystem whose organization fixture is
invalid JSON, the loop over organization followed by department stops at the
organization banner. -/
theorem parse_error_aborts_entire_run_witness :
    run_order badFS okApi ("organization" :: ["department"]) =
      ([Event.print ("\nPopulating " ++ "organization" ++ "...")],
       Except.error PyError.jsonDecodeError) :=
  parse_error_aborts_entire_run badFS okApi "organization" ["department"] rfl

/-- C3: for an arbitrary API oracle — in particular one answering non-201
for any records — a full run over all fixture files posts every record of
every entity type in order, reports each non-201 response with its status
code and body (and each 201 with a success line), and ends without error:
no response status ever terminates the run. -/
theorem main_trace_general_api (content : String → FixtureJson)
    (api : Request → Response) :
    main (fixtureFS content) api =
      (creation_order.flatMap (fun e =>
        Event.print ("\nPopulating " ++ e ++ "...") ::
          (recordsOf (content e)).flatMap (fun r =>
            if (api { url := BASE_URL ++ entityPath e, headers := HEADERS, body := r }).status_code == 201 then
              [Event.post { url := BASE_URL ++ entityPath e, headers := HEADERS, body := r }
                 (api { url := BASE_URL ++ entityPath e, headers := HEADERS, body := r }),
               Event.print ("Successfully created " ++ e ++ ": " ++ get_id r)]
            else
              [Event.post { url := BASE_URL ++ entityPath e, headers := HEADERS, body := r }
                 (api { url := BASE_URL ++ entityPath e, headers := HEADERS, body := r }),
               Event.print ("Failed to create " ++ e ++ ": " ++ get_id r),
               Event.print ("Status code: " ++
                 toString (api { url := BASE_URL ++ entityPath e, headers := HEADERS, body := r }).status_code),
               Event.print ("Response: " ++
                 (api { url := BASE_URL ++ entityPath e, headers := HEADERS, body := r }).text)])),
       Except.ok ()) := by
  rw [main, run_order_trace (fixtureFS content) api content creation_order
    lookup_entityPath (fixtureFS_lookup content)]
  congr 1
  apply flatMap_congr_mem
  intro e he
  have hp := lookup_entityPath e he
  congr 1
  exact congrArg (List.flatMap (recordsOf (content e)))
    (funext fun r => by rw [create_entity_eq api e (entityPath e) r hp])

/-- C10: every entity type of the creation order is a key of the
entity-to-path mapping, and consequently no driver run — over any
filesystem and any API oracle — ever ends in a missing-key error. -/
theorem creation_order_keys_covered :
    (∀ e ∈ creation_order, (List.lookup e ENTITIES).isSome = true) ∧
    (∀ (fs : FileSystem) (api : Request → Response) (k : String),
      (main fs api).2 ≠ Except.error (PyError.keyError k)) := by
  constructor
  · decide
  · intro fs api k
    exact run_order_no_keyError fs api creation_order (by decide) k

/-- C10 witness: `attributeGroup` is a key of the mapping, and the concrete
run over `badFS` does not end in a missing-key error. -/
theorem creation_order_keys_covered_witness :
    (List.lookup "attributeGroup" ENTITIES).isSome = true ∧
    (main badFS okApi).2 ≠ Except.error (PyError.keyError "user") :=
  ⟨creation_order_keys_covered.1 "attributeGroup" (by decide),
   creation_order_keys_covered.2 badFS okApi "user"⟩

end Populate
